import Mathlib

/-!
Verification of the checker (bear) execution kernel of `coalib/bears/Bear.py`
against its natural-language specification.

The embedding is shallow: configuration values are opaque text, the
asynchronous diagnostics channel is a list of enqueued `(message, timeout)`
pairs wrapped in `Option` (absent channel = `none`), lifecycle hooks are
`Except`-valued computations, and `Bear.run` produces an event trace that
records, in order, every message enqueued onto the channel and every hook
invocation.
-/

set_option maxHeartbeats 1000000

namespace Coala

/-- Configuration values are loosely typed text in the store. -/
abbrev Value := String

/-- Severities (`coalib.output.printers.LOG_LEVEL`) of diagnostic messages,
ordered by increasing visibility. -/
inductive LOG_LEVEL : Type
  | DEBUG
  | WARNING
  | ERROR
deriving DecidableEq, Repr

/-- Model of `coalib.processes.communication.LogMessage`: a severity paired with the
joined message text. -/
structure LogMessage : Type where
  log_level : LOG_LEVEL
  message : String
deriving DecidableEq, Repr

/-- The diagnostics channel: contents of the queue, each entry recording the
enqueued message together with the timeout passed to `put`. -/
structure MsgQueue : Type where
  contents : List (LogMessage × Nat)
deriving DecidableEq, Repr

/-- Model of `Bear.__send_msg`: if no channel is configured (`none`) the call is a
no-op; if the argument list is empty the call is a no-op; otherwise exactly
one message is enqueued whose text is the arguments joined by the delimiter,
with the configured `TIMEOUT` passed to `put`. -/
def sendMsg (message_queue : Option MsgQueue) (TIMEOUT : Nat)
    (log_level : LOG_LEVEL) (delimiter : String) (args : List String) :
    Option MsgQueue :=
  match message_queue with
  | none => none
  | some q =>
    if args.length = 0 then some q
    else some ⟨q.contents ++
      [(⟨log_level, String.intercalate delimiter args⟩, TIMEOUT)]⟩

/-- Default value of the `delimiter` keyword of the three message helpers. -/
def defaultDelimiter : String := " "

/-- Model of `Bear.debug_msg`. -/
def debug_msg (message_queue : Option MsgQueue) (TIMEOUT : Nat)
    (args : List String) (delimiter : String := defaultDelimiter) :
    Option MsgQueue :=
  sendMsg message_queue TIMEOUT LOG_LEVEL.DEBUG delimiter args

/-- Model of `Bear.warn_msg`. -/
def warn_msg (message_queue : Option MsgQueue) (TIMEOUT : Nat)
    (args : List String) (delimiter : String := defaultDelimiter) :
    Option MsgQueue :=
  sendMsg message_queue TIMEOUT LOG_LEVEL.WARNING delimiter args

/-- Model of `Bear.fail_msg`. -/
def fail_msg (message_queue : Option MsgQueue) (TIMEOUT : Nat)
    (args : List String) (delimiter : String := defaultDelimiter) :
    Option MsgQueue :=
  sendMsg message_queue TIMEOUT LOG_LEVEL.ERROR delimiter args

/-- One call to one of the three message helpers, for reasoning about
arbitrary sequences of diagnostic calls. -/
inductive MsgCall : Type
  | debug (delimiter : String) (args : List String)
  | warn (delimiter : String) (args : List String)
  | fail (delimiter : String) (args : List String)
deriving DecidableEq, Repr

/-- Run one diagnostic call against the channel state. -/
def runMsgCall (message_queue : Option MsgQueue) (TIMEOUT : Nat) :
    MsgCall → Option MsgQueue
  | MsgCall.debug d args => debug_msg message_queue TIMEOUT args d
  | MsgCall.warn d args => warn_msg message_queue TIMEOUT args d
  | MsgCall.fail d args => fail_msg message_queue TIMEOUT args d

/-- Run a sequence of diagnostic calls against the channel state. -/
def runMsgCalls (message_queue : Option MsgQueue) (TIMEOUT : Nat) :
    List MsgCall → Option MsgQueue
  | [] => message_queue
  | c :: cs => runMsgCalls (runMsgCall message_queue TIMEOUT c) TIMEOUT cs

/-- A Python object as far as `Bear.__init__` inspects it: whether it is an
instance of `Section`, and whether it has a `put` attribute. -/
structure PyObj : Type where
  isSection : Bool
  hasPut : Bool
deriving DecidableEq, Repr

/-- Python `hasattr(message_queue, "put")`, where the handle may be `None`
(`hasattr(None, "put")` is false). -/
def hasPutAttr : Option PyObj → Bool
  | none => false
  | some o => o.hasPut

/-- The state a successfully constructed `Bear` holds. -/
structure BearFields : Type where
  bsection : Option PyObj
  message_queue : Option PyObj
  TIMEOUT : Nat
deriving DecidableEq, Repr

/-- Model of `Bear.__init__`: validates the handles synchronously, raising `TypeError`
(modelled as `Except.error` carrying the message) before any field is set;
`TIMEOUT` defaults to `0`. -/
def bearInit (s : Option PyObj) (message_queue : Option PyObj)
    (TIMEOUT : Nat := 0) : Except String BearFields :=
  if ¬ (s.elim false PyObj.isSection) then
    Except.error "section has to be of type Section."
  else if ¬ hasPutAttr message_queue ∧ message_queue ≠ none then
    Except.error "message_queue has to be a Queue or None."
  else
    Except.ok ⟨s, message_queue, TIMEOUT⟩

/-- The configuration store (`Section`): a looked-up key yields its raw text
value when present; missing required keys are resolved by the store itself
(it may prompt the user), modelled as a total resolution function. -/
structure Section : Type where
  contents : List (String × Value)
  resolve_missing_required : String → Value

/-- Key lookup in the store. -/
def Section.lookup (sec : Section) (k : String) : Option Value :=
  sec.contents.lookup k

/-- The part of a Metadata Record that configuration binding consumes: the
declared required parameter names and the optional parameters with their
recorded defaults (descriptions and type coercion do not affect which value
is bound, and so are elided). -/
structure FunctionMetadata : Type where
  name : String
  non_optional_params : List String
  optional_params : List (String × Value)

/-- Whether `k` is a declared parameter of the metadata record. -/
def FunctionMetadata.declares (md : FunctionMetadata) (k : String) : Bool :=
  md.non_optional_params.contains k || (md.optional_params.lookup k).isSome

/-- Modelled from the spec: `FunctionMetadata.create_params_from_section` is
not under `src/` (only its caller `Bear.run_bear_from_section` and its tests
are). Per spec §4.2, the Binder fills in every declared parameter by querying
the configuration store for a value named after the parameter; a required
parameter missing from the store is resolved by the store itself (which may
prompt), and an optional parameter missing from the store gets its recorded
default. Parameters not declared by the metadata are not produced. -/
def create_params_from_section (md : FunctionMetadata) (sec : Section) :
    String → Option Value :=
  fun k =>
    if md.non_optional_params.contains k then
      match sec.lookup k with
      | some v => some v
      | none => some (sec.resolve_missing_required k)
    else
      match md.optional_params.lookup k with
      | some d =>
        match sec.lookup k with
        | some v => some v
        | none => some d
      | none => none

/-- Python `dict.update`: every key of the second mapping overwrites the
first. -/
def dictUpdate (d upd : String → Option Value) : String → Option Value :=
  fun k =>
    match upd k with
    | some v => some v
    | none => d k

/-- An exception value: either `NotImplementedError` or any other fault, with
the text `traceback.format_exc()` renders for it. -/
inductive PyExc : Type
  | notImplementedError
  | exc (trace : String)
deriving DecidableEq, Repr

/-- Python `traceback.format_exc()` applied to the in-flight exception. -/
def PyExc.format_exc : PyExc → String
  | PyExc.notImplementedError => "NotImplementedError"
  | PyExc.exc t => t

/-- A concrete checker as `Bear.run` consumes it: its class name, its channel
configuration, its metadata record, its section, and its three overridable
hooks, each of which may raise. `run_bear` receives the positional arguments
and the updated keyword-argument mapping. -/
structure BearImpl (ρ : Type) : Type where
  name : String
  hasQueue : Bool
  TIMEOUT : Nat
  metadata : FunctionMetadata
  bsection : Section
  set_up : Except PyExc Unit
  run_bear : List Value → (String → Option Value) → Except PyExc ρ
  tear_down : Except PyExc Unit

/-- The base class default for `run_bear`: `raise NotImplementedError`. -/
def defaultRunBear (ρ : Type) :
    List Value → (String → Option Value) → Except PyExc ρ :=
  fun _ _ => Except.error PyExc.notImplementedError

/-- Model of `Bear.run_bear_from_section`: updates the injected keyword arguments with
the parameters created from the section and calls the run hook. -/
def run_bear_from_section (b : BearImpl ρ) (args : List Value)
    (kwargs : String → Option Value) : Except PyExc ρ :=
  b.run_bear args
    (dictUpdate kwargs (create_params_from_section b.metadata b.bsection))

/-- Static `Bear.kind`: `raise NotImplementedError`, with nothing around the
call to catch it. -/
def Bear.kind : Except PyExc Unit :=
  Except.error PyExc.notImplementedError

/-- The text of the `"Setting up bear {}..."` diagnostic. -/
def settingUpMsg (name : String) : String :=
  "Setting up bear " ++ name ++ "..."

/-- The text of the `"Running bear {}..."` diagnostic. -/
def runningMsg (name : String) : String :=
  "Running bear " ++ name ++ "..."

/-- The text of the `"Tearing down bear {}..."` diagnostic. -/
def tearingDownMsg (name : String) : String :=
  "Tearing down bear " ++ name ++ "..."

/-- The text of the `"Bear {} failed to run"` diagnostic. -/
def failedMsg (name : String) : String :=
  "Bear " ++ name ++ " failed to run"

/-- The fixed middle part of the failure DEBUG diagnostic, between the bear
name and the trace text. -/
def tracebackMid : String :=
  " raised an exception. If you are the writer of this bear, please make sure to catch all exceptions. If not and this error annoys you, you might want to get in contact with the writer of this bear.\n\nTraceback information is provided below:\n\n"

/-- The text of the failure DEBUG diagnostic carrying the fault trace. -/
def tracebackMsg (name trace : String) : String :=
  "The bear " ++ name ++ tracebackMid ++ trace ++ "\n"

/-- One observable event of a lifecycle run: a message enqueued onto the
diagnostics channel (with the timeout passed to `put`), or the invocation of
one of the three hooks. -/
inductive Event : Type
  | enq (m : LogMessage) (timeout : Nat)
  | setUpCall
  | runBearCall
  | tearDownCall
deriving DecidableEq, Repr

/-- The channel events of one `__send_msg` call from within the lifecycle:
nothing without a channel, nothing for an empty argument list, otherwise one
enqueue. Mirrors `sendMsg` on the event trace. -/
def emitEvents (hasQueue : Bool) (TIMEOUT : Nat) (log_level : LOG_LEVEL)
    (delimiter : String) (args : List String) : List Event :=
  if hasQueue then
    if args.length = 0 then []
    else [Event.enq ⟨log_level, String.intercalate delimiter args⟩ TIMEOUT]
  else []

/-- The body of the `try:` block of `Bear.run`: the three lifecycle phases in
order, each preceded by its DEBUG diagnostic, stopping at the first fault. -/
def runTry (b : BearImpl ρ) (args : List Value)
    (kwargs : String → Option Value) : Except PyExc ρ × List Event :=
  let e1 := emitEvents b.hasQueue b.TIMEOUT LOG_LEVEL.DEBUG defaultDelimiter
    [settingUpMsg b.name] ++ [Event.setUpCall]
  match b.set_up with
  | Except.error e => (Except.error e, e1)
  | Except.ok _ =>
    let e2 := e1 ++ emitEvents b.hasQueue b.TIMEOUT LOG_LEVEL.DEBUG
      defaultDelimiter [runningMsg b.name] ++ [Event.runBearCall]
    match run_bear_from_section b args kwargs with
    | Except.error e => (Except.error e, e2)
    | Except.ok r =>
      let e3 := e2 ++ emitEvents b.hasQueue b.TIMEOUT LOG_LEVEL.DEBUG
        defaultDelimiter [tearingDownMsg b.name] ++ [Event.tearDownCall]
      match b.tear_down with
      | Except.error e => (Except.error e, e3)
      | Except.ok _ => (Except.ok r, e3)

/-- Model of `Bear.run`: the supervised lifecycle. The bare `except:` catches every
fault raised inside the `try:` body, emits the WARNING diagnostic and the
DEBUG diagnostic carrying the trace, and falls off the end of the function
(returning `None`, modelled as `none`). -/
def Bear.run (b : BearImpl ρ) (args : List Value)
    (kwargs : String → Option Value) : Option ρ × List Event :=
  match runTry b args kwargs with
  | (Except.ok r, tr) => (some r, tr)
  | (Except.error e, tr) =>
    (none, tr ++
      emitEvents b.hasQueue b.TIMEOUT LOG_LEVEL.WARNING defaultDelimiter
        [failedMsg b.name] ++
      emitEvents b.hasQueue b.TIMEOUT LOG_LEVEL.DEBUG defaultDelimiter
        [tracebackMsg b.name e.format_exc])

/-- Static `Bear.get_dependencies`: the base class declares no
prerequisites. -/
def get_dependencies {α : Type} : List α := []

/-- Model of `Bear.missing_dependencies`: starting from the declared prerequisite
classes, remove (first occurrence, as Python `list.remove`) each already
scheduled class that is present, and return what is left. `deps` stands for
the `cls.get_dependencies()` of the checker class at hand. -/
def missing_dependencies [DecidableEq α] (deps : List α) (lst : List α) :
    List α :=
  lst.foldl (fun dep_classes item =>
    if item ∈ dep_classes then dep_classes.erase item else dep_classes) deps

/-! Concrete instances used to evaluate the theorems on closed inputs. -/

/-- A store with no contents. -/
def emptySection : Section := ⟨[], fun _ => "resolved"⟩

/-- A store holding the single entry `p ↦ "store"`. -/
def pSection : Section := ⟨[("p", "store")], fun _ => "resolved"⟩

/-- A metadata record declaring the single required parameter `p`. -/
def pMetadata : FunctionMetadata := ⟨"run_bear", ["p"], []⟩

/-- Injected call-site keyword arguments supplying `p ↦ "call"`. -/
def pKwargs : String → Option Value := fun k => if k = "p" then some "call" else none

/-- A checker whose run hook reports back the bound value of parameter `p`. -/
def reportBear : BearImpl (Option Value) where
  name := "ReportBear"
  hasQueue := false
  TIMEOUT := 0
  metadata := pMetadata
  bsection := pSection
  set_up := Except.ok ()
  run_bear := fun _ kw => Except.ok (kw "p")
  tear_down := Except.ok ()

/-- A checker, diagnostics channel configured, whose run hook raises. -/
def failBear : BearImpl Value where
  name := "FailBear"
  hasQueue := true
  TIMEOUT := 0
  metadata := ⟨"run_bear", [], []⟩
  bsection := emptySection
  set_up := Except.ok ()
  run_bear := fun _ _ => Except.error (PyExc.exc "boom trace")
  tear_down := Except.ok ()

/-- A checker, diagnostics channel configured, that leaves `run_bear` at the
base class default (`raise NotImplementedError`). -/
def baseLikeBear : BearImpl Value where
  name := "Bear"
  hasQueue := true
  TIMEOUT := 0
  metadata := ⟨"run_bear", [], []⟩
  bsection := emptySection
  set_up := Except.ok ()
  run_bear := defaultRunBear Value
  tear_down := Except.ok ()

/-- A checker, diagnostics channel configured, whose whole lifecycle
succeeds. -/
def okBear : BearImpl Value where
  name := "OkBear"
  hasQueue := true
  TIMEOUT := 3
  metadata := ⟨"run_bear", [], []⟩
  bsection := emptySection
  set_up := Except.ok ()
  run_bear := fun _ _ => Except.ok "result"
  tear_down := Except.ok ()

/-! Helper lemmas. -/

theorem length_settingUpMsg (n : String) :
    (settingUpMsg n).length = n.length + 19 := by
  have h1 : ("Setting up bear " : String).length = 16 := rfl
  have h2 : ("..." : String).length = 3 := rfl
  simp only [settingUpMsg, String.length_append, h1, h2]
  omega

theorem length_runningMsg (n : String) :
    (runningMsg n).length = n.length + 16 := by
  have h1 : ("Running bear " : String).length = 13 := rfl
  have h2 : ("..." : String).length = 3 := rfl
  simp only [runningMsg, String.length_append, h1, h2]
  omega

theorem length_tearingDownMsg (n : String) :
    (tearingDownMsg n).length = n.length + 21 := by
  have h1 : ("Tearing down bear " : String).length = 18 := rfl
  have h2 : ("..." : String).length = 3 := rfl
  simp only [tearingDownMsg, String.length_append, h1, h2]
  omega

theorem length_tracebackMsg (n t : String) :
    (tracebackMsg n t).length = n.length + t.length + 250 := by
  have h1 : ("The bear " : String).length = 9 := rfl
  have h2 : tracebackMid.length = 240 := rfl
  have h3 : ("\n" : String).length = 1 := rfl
  simp only [tracebackMsg, String.length_append, h1, h2, h3]
  omega

theorem tearingDown_ne_settingUp (n : String) :
    tearingDownMsg n ≠ settingUpMsg n := by
  intro h
  have hl := congrArg String.length h
  rw [length_tearingDownMsg, length_settingUpMsg] at hl
  omega

theorem tearingDown_ne_running (n : String) :
    tearingDownMsg n ≠ runningMsg n := by
  intro h
  have hl := congrArg String.length h
  rw [length_tearingDownMsg, length_runningMsg] at hl
  omega

theorem tearingDown_ne_traceback (n t : String) :
    tearingDownMsg n ≠ tracebackMsg n t := by
  intro h
  have hl := congrArg String.length h
  rw [length_tearingDownMsg, length_tracebackMsg] at hl
  omega

/-- Shared containment lemma: if any of the three hooks (argument binding
included, since it happens inside `run_bear_from_section`) raises, `Bear.run`
returns no result. -/
theorem run_fst_eq_none_of_fault (b : BearImpl ρ) (args : List Value)
    (kwargs : String → Option Value) (e : PyExc)
    (h : b.set_up = Except.error e ∨
      run_bear_from_section b args kwargs = Except.error e ∨
      b.tear_down = Except.error e) :
    (Bear.run b args kwargs).1 = none := by
  cases hsu : b.set_up with
  | error e1 => simp [Bear.run, runTry, hsu]
  | ok u =>
    cases hrb : run_bear_from_section b args kwargs with
    | error e2 => simp [Bear.run, runTry, hsu, hrb]
    | ok r =>
      cases htd : b.tear_down with
      | error e3 => simp [Bear.run, runTry, hsu, hrb, htd]
      | ok v =>
        rcases h with h | h | h
        · rw [hsu] at h
          cases h
        · rw [hrb] at h
          cases h
        · rw [htd] at h
          cases h

theorem intercalate_singleton (d s : String) : String.intercalate d [s] = s :=
  rfl

/-! Claim theorems. -/

/-- Claim C1, counterexample: parameter `p` is supplied both as an injected
call-site keyword argument (`"call"`) and by the configuration store
(`"store"`), yet the run hook observes the store value: `kwargs.update(...)`
in `run_bear_from_section` lets the section-derived value overwrite the
injected one, so the claimed precedence (call site over store) fails. -/
theorem callsite_beats_store_counterexample :
    pKwargs "p" = some "call" ∧
    Section.lookup pSection "p" = some "store" ∧
    run_bear_from_section reportBear [] pKwargs = Except.ok (some "store") ∧
    run_bear_from_section reportBear [] pKwargs ≠ Except.ok (some "call") := by
  refine ⟨rfl, rfl, rfl, ?_⟩
  intro h
  injection h with h1
  injection h1 with h2
  exact absurd h2 (by decide)

/-- Claim C1, amended: the run hook receives exactly the injected keyword
arguments updated with the section-derived parameters, and for every declared
parameter P that the configuration store supplies, the bound argument set
maps P to the store value — the store value overwrites the injected
call-site argument (and the recorded default is not used), the reverse of
the claimed precedence. -/
theorem store_overwrites_callsite (b : BearImpl ρ) (args : List Value)
    (kwargs : String → Option Value) (P : String) (v : Value)
    (hdecl : b.metadata.declares P = true)
    (hstore : b.bsection.lookup P = some v) :
    run_bear_from_section b args kwargs = b.run_bear args
      (dictUpdate kwargs (create_params_from_section b.metadata b.bsection)) ∧
    dictUpdate kwargs (create_params_from_section b.metadata b.bsection) P =
      some v := by
  refine ⟨rfl, ?_⟩
  unfold FunctionMetadata.declares at hdecl
  by_cases hc : P ∈ b.metadata.non_optional_params
  · simp [dictUpdate, create_params_from_section, hc, hstore]
  · have hc' : b.metadata.non_optional_params.contains P = false := by
      simpa using hc
    rw [hc', Bool.false_or] at hdecl
    obtain ⟨d, hd⟩ := Option.isSome_iff_exists.mp hdecl
    simp [dictUpdate, create_params_from_section, hc, hd, hstore]

/-- Closed evaluation of `store_overwrites_callsite` on the concrete
checker. -/
theorem store_overwrites_callsite_witness :
    run_bear_from_section reportBear [] pKwargs = reportBear.run_bear []
      (dictUpdate pKwargs
        (create_params_from_section reportBear.metadata reportBear.bsection)) ∧
    dictUpdate pKwargs
      (create_params_from_section reportBear.metadata reportBear.bsection) "p" =
      some "store" :=
  store_overwrites_callsite reportBear [] pKwargs "p" "store" rfl rfl

/-- Claim C2: any fault raised by `set_up`, by argument binding together with
the run hook (`run_bear_from_section`), or by `tear_down` is swallowed by the
bare `except:` of `Bear.run`: the call returns no result. Non-propagation is
expressed by `Bear.run` being a total function into `Option ρ` — the model
of the `try`-protected body is `runTry`, whose `Except.error` outcome `run`
always maps to `none` rather than re-raising. -/
theorem run_contains_faults (b : BearImpl ρ) (args : List Value)
    (kwargs : String → Option Value) (e : PyExc)
    (h : b.set_up = Except.error e ∨
      run_bear_from_section b args kwargs = Except.error e ∨
      b.tear_down = Except.error e) :
    (Bear.run b args kwargs).1 = none :=
  run_fst_eq_none_of_fault b args kwargs e h

/-- Closed evaluation of `run_contains_faults` on a checker whose run hook
raises. -/
theorem run_contains_faults_witness :
    (Bear.run failBear [] (fun _ => none)).1 = none :=
  run_contains_faults failBear [] (fun _ => none) (PyExc.exc "boom trace")
    (Or.inr (Or.inl rfl))

/-- Claim C3, counterexample: a checker that leaves the run hook at the base
class default (`raise NotImplementedError`), run through the lifecycle
controller, does NOT propagate the not-implemented error: the bare `except:`
of `Bear.run` catches it like any other fault, returns no result and emits
the WARNING/DEBUG failure pair — refuting the claim that not-implemented
errors from the run hook are not caught by the lifecycle controller. -/
theorem notimplemented_contained_counterexample :
    Bear.run baseLikeBear [] (fun _ => none) = (none,
      [Event.enq ⟨LOG_LEVEL.DEBUG, settingUpMsg "Bear"⟩ 0, Event.setUpCall,
       Event.enq ⟨LOG_LEVEL.DEBUG, runningMsg "Bear"⟩ 0, Event.runBearCall,
       Event.enq ⟨LOG_LEVEL.WARNING, failedMsg "Bear"⟩ 0,
       Event.enq ⟨LOG_LEVEL.DEBUG,
         tracebackMsg "Bear" "NotImplementedError"⟩ 0]) :=
  rfl

/-- Claim C3, amended: `kind()` on the base abstraction raises
`NotImplementedError` (and nothing in the module wraps the call, so a direct
call propagates it to the caller); a `NotImplementedError` raised by an
unimplemented run hook during `run(...)`, however, is caught by the
controller's bare `except:` like any runtime fault, so `run` returns no
result instead of propagating it. -/
theorem kind_raises_run_contains_notimplemented :
    Bear.kind = Except.error PyExc.notImplementedError ∧
    (∀ (ρ : Type) (b : BearImpl ρ) (args : List Value)
      (kwargs : String → Option Value),
      run_bear_from_section b args kwargs =
        Except.error PyExc.notImplementedError →
      (Bear.run b args kwargs).1 = none) :=
  ⟨rfl, fun _ b args kwargs h =>
    run_fst_eq_none_of_fault b args kwargs PyExc.notImplementedError
      (Or.inr (Or.inl h))⟩

/-- Closed evaluation of `kind_raises_run_contains_notimplemented` on the
default-run-hook checker. -/
theorem kind_raises_run_contains_notimplemented_witness :
    Bear.kind = Except.error PyExc.notImplementedError ∧
    (Bear.run baseLikeBear [] (fun _ => none)).1 = none :=
  ⟨kind_raises_run_contains_notimplemented.1,
   kind_raises_run_contains_notimplemented.2 Value baseLikeBear []
     (fun _ => none) rfl⟩

/-- Claim C5: when the run hook raises, the whole lifecycle run yields an
absent result, and its event trace is exactly: the set-up DEBUG diagnostic,
the set-up hook, the run DEBUG diagnostic, the run hook, then on the failure
path exactly one WARNING diagnostic followed by exactly one DEBUG diagnostic
whose text contains the fault's trace; no tearing-down DEBUG diagnostic is
ever enqueued. -/
theorem run_failure_trace (b : BearImpl ρ) (args : List Value)
    (kwargs : String → Option Value) (e : PyExc)
    (hq : b.hasQueue = true) (hsu : b.set_up = Except.ok ())
    (hrb : run_bear_from_section b args kwargs = Except.error e) :
    Bear.run b args kwargs = (none,
      [Event.enq ⟨LOG_LEVEL.DEBUG, settingUpMsg b.name⟩ b.TIMEOUT,
       Event.setUpCall,
       Event.enq ⟨LOG_LEVEL.DEBUG, runningMsg b.name⟩ b.TIMEOUT,
       Event.runBearCall,
       Event.enq ⟨LOG_LEVEL.WARNING, failedMsg b.name⟩ b.TIMEOUT,
       Event.enq ⟨LOG_LEVEL.DEBUG,
         tracebackMsg b.name e.format_exc⟩ b.TIMEOUT]) ∧
    (∃ p s, tracebackMsg b.name e.format_exc = p ++ e.format_exc ++ s) ∧
    Event.enq ⟨LOG_LEVEL.DEBUG, tearingDownMsg b.name⟩ b.TIMEOUT ∉
      (Bear.run b args kwargs).2 := by
  have hrun : Bear.run b args kwargs = (none,
      [Event.enq ⟨LOG_LEVEL.DEBUG, settingUpMsg b.name⟩ b.TIMEOUT,
       Event.setUpCall,
       Event.enq ⟨LOG_LEVEL.DEBUG, runningMsg b.name⟩ b.TIMEOUT,
       Event.runBearCall,
       Event.enq ⟨LOG_LEVEL.WARNING, failedMsg b.name⟩ b.TIMEOUT,
       Event.enq ⟨LOG_LEVEL.DEBUG,
         tracebackMsg b.name e.format_exc⟩ b.TIMEOUT]) := by
    simp [Bear.run, runTry, emitEvents, hsu, hrb, hq, intercalate_singleton]
  refine ⟨hrun, ⟨"The bear " ++ b.name ++ tracebackMid, "\n", rfl⟩, ?_⟩
  rw [hrun]
  simp [tearingDown_ne_settingUp, tearingDown_ne_running,
    tearingDown_ne_traceback]

/-- Closed evaluation of `run_failure_trace` on the concrete failing
checker. -/
theorem run_failure_trace_witness :
    Bear.run failBear [] (fun _ => none) = (none,
      [Event.enq ⟨LOG_LEVEL.DEBUG, settingUpMsg "FailBear"⟩ 0,
       Event.setUpCall,
       Event.enq ⟨LOG_LEVEL.DEBUG, runningMsg "FailBear"⟩ 0,
       Event.runBearCall,
       Event.enq ⟨LOG_LEVEL.WARNING, failedMsg "FailBear"⟩ 0,
       Event.enq ⟨LOG_LEVEL.DEBUG,
         tracebackMsg "FailBear" "boom trace"⟩ 0]) ∧
    (∃ p s, tracebackMsg "FailBear" "boom trace" = p ++ "boom trace" ++ s) ∧
    Event.enq ⟨LOG_LEVEL.DEBUG, tearingDownMsg "FailBear"⟩ 0 ∉
      (Bear.run failBear [] (fun _ => none)).2 :=
  run_failure_trace failBear [] (fun _ => none) (PyExc.exc "boom trace")
    rfl rfl rfl

/-- Claim C7: in a successful invocation the events are exactly, in order:
set-up DEBUG diagnostic, set-up hook, run DEBUG diagnostic, run hook,
tearing-down DEBUG diagnostic, tear-down hook — and the run hook's result is
returned to the caller unchanged, after all of them. -/
theorem run_success_ordering (b : BearImpl ρ) (args : List Value)
    (kwargs : String → Option Value) (r : ρ)
    (hq : b.hasQueue = true) (hsu : b.set_up = Except.ok ())
    (hrb : run_bear_from_section b args kwargs = Except.ok r)
    (htd : b.tear_down = Except.ok ()) :
    Bear.run b args kwargs = (some r,
      [Event.enq ⟨LOG_LEVEL.DEBUG, settingUpMsg b.name⟩ b.TIMEOUT,
       Event.setUpCall,
       Event.enq ⟨LOG_LEVEL.DEBUG, runningMsg b.name⟩ b.TIMEOUT,
       Event.runBearCall,
       Event.enq ⟨LOG_LEVEL.DEBUG, tearingDownMsg b.name⟩ b.TIMEOUT,
       Event.tearDownCall]) := by
  simp [Bear.run, runTry, emitEvents, hsu, hrb, htd, hq, intercalate_singleton]

/-- Closed evaluation of `run_success_ordering` on the concrete successful
checker. -/
theorem run_success_ordering_witness :
    Bear.run okBear [] (fun _ => none) = (some "result",
      [Event.enq ⟨LOG_LEVEL.DEBUG, settingUpMsg "OkBear"⟩ 3,
       Event.setUpCall,
       Event.enq ⟨LOG_LEVEL.DEBUG, runningMsg "OkBear"⟩ 3,
       Event.runBearCall,
       Event.enq ⟨LOG_LEVEL.DEBUG, tearingDownMsg "OkBear"⟩ 3,
       Event.tearDownCall]) :=
  run_success_ordering okBear [] (fun _ => none) "result" rfl rfl rfl rfl

/-- Claim C4, counterexample: the claim says that when the message text to be
emitted is empty, nothing is enqueued. Calling `debug_msg` with the single
argument `""` produces the empty message text, yet a message is enqueued onto
the configured channel. -/
theorem empty_text_still_enqueued :
    String.intercalate defaultDelimiter [""] = "" ∧
    debug_msg (some ⟨[]⟩) 0 [""] = some ⟨[(⟨LOG_LEVEL.DEBUG, ""⟩, 0)]⟩ ∧
    debug_msg (some ⟨[]⟩) 0 [""] ≠ some ⟨[]⟩ := by
  refine ⟨rfl, rfl, ?_⟩
  intro h
  simp [debug_msg, sendMsg] at h

/-- Claim C4, amended: for every severity and every checker with a configured
diagnostics channel, nothing is enqueued exactly when the call supplies no
message arguments (the code tests `len(args) == 0`, not emptiness of the
joined text). -/
theorem no_args_nothing_enqueued (q : MsgQueue) (TIMEOUT : Nat)
    (delimiter : String) :
    debug_msg (some q) TIMEOUT [] delimiter = some q ∧
    warn_msg (some q) TIMEOUT [] delimiter = some q ∧
    fail_msg (some q) TIMEOUT [] delimiter = some q :=
  ⟨rfl, rfl, rfl⟩

/-- Claim C6: constructing a checker with a configuration-store handle that is
not a `Section` instance raises `TypeError` synchronously at construction
(the `Except.error` is the value of `__init__` itself, produced before any
field assignment or lifecycle method); likewise a diagnostics-channel handle
that is neither `None` nor has a `put` attribute raises `TypeError`. -/
theorem bear_init_type_errors :
    (∀ (s mq : Option PyObj) (TIMEOUT : Nat),
      s.elim false PyObj.isSection = false →
      bearInit s mq TIMEOUT = Except.error "section has to be of type Section.") ∧
    (∀ (s : Option PyObj) (o : PyObj) (TIMEOUT : Nat),
      s.elim false PyObj.isSection = true → o.hasPut = false →
      bearInit s (some o) TIMEOUT =
        Except.error "message_queue has to be a Queue or None.") := by
  constructor
  · intro s mq TIMEOUT h
    simp [bearInit, h]
  · intro s o TIMEOUT hs hput
    simp [bearInit, hs, hasPutAttr, hput]

/-- Closed evaluation of `bear_init_type_errors` on concrete handles. -/
theorem bear_init_type_errors_witness :
    bearInit (some ⟨false, false⟩) none 0 =
      Except.error "section has to be of type Section." ∧
    bearInit (some ⟨true, true⟩) (some ⟨false, false⟩) 0 =
      Except.error "message_queue has to be a Queue or None." :=
  ⟨bear_init_type_errors.1 (some ⟨false, false⟩) none 0 rfl,
   bear_init_type_errors.2 (some ⟨true, true⟩) ⟨false, false⟩ 0 rfl rfl⟩

/-- Claim C8: with no diagnostics channel configured, any sequence of
`debug_msg`/`warn_msg`/`fail_msg` calls completes (the model is a total
function, so no error is possible) and enqueues nothing: the channel state
stays `none`, so no observable output is ever produced. -/
theorem no_channel_silent_noop (TIMEOUT : Nat) (calls : List MsgCall) :
    runMsgCalls none TIMEOUT calls = none := by
  induction calls with
  | nil => rfl
  | cons c cs ih =>
    cases c <;>
      simpa [runMsgCalls, runMsgCall, debug_msg, warn_msg, fail_msg, sendMsg]
        using ih

/-- Claim C9: `missing_dependencies` returns exactly the declared
prerequisites (a duplicate-free list, since it stands for a set of checker
classes) minus the already-scheduled ones, and the base class declares no
prerequisites. The query is pure by construction: it is a mathematical
function of `deps` and `lst`, so repeated calls agree and no state is
touched. -/
theorem missing_dependencies_spec [DecidableEq α] (deps lst : List α)
    (h : deps.Nodup) :
    missing_dependencies deps lst = deps.filter (fun d => !lst.contains d) ∧
    (get_dependencies : List α) = [] := by
  refine ⟨?_, rfl⟩
  induction lst generalizing deps with
  | nil => simp [missing_dependencies]
  | cons a l ih =>
    have step : missing_dependencies deps (a :: l) =
        missing_dependencies (if a ∈ deps then deps.erase a else deps) l := by
      simp [missing_dependencies, List.foldl_cons]
    rw [step]
    by_cases hmem : a ∈ deps
    · rw [if_pos hmem, ih _ (h.erase a), h.erase_eq_filter a,
        List.filter_filter]
      apply List.filter_congr
      intro d _
      simp only [List.contains_cons, Bool.not_or]
      by_cases hda : d = a
      · simp [hda]
      · have had : ¬(a = d) := fun he => hda he.symm
        simp [hda, had, bne, Bool.and_comm]
    · rw [if_neg hmem, ih _ h]
      apply List.filter_congr
      intro d hd
      have hda : d ≠ a := fun he => hmem (he ▸ hd)
      have had : ¬(a = d) := fun he => hda he.symm
      simp [List.contains_cons, had]
      intro _
      exact hda

/-- Closed evaluation of `missing_dependencies_spec` on concrete lists. -/
theorem missing_dependencies_spec_witness :
    missing_dependencies [1, 2, 3] [2] =
      List.filter (fun d => !List.contains [2] d) [1, 2, 3] ∧
    (get_dependencies : List Nat) = [] :=
  missing_dependencies_spec [1, 2, 3] [2] (by decide)

/-- Claim C10: a `debug_msg`/`warn_msg`/`fail_msg` call with at least one
argument on a checker with a configured channel enqueues exactly one message,
with severity DEBUG/WARNING/ERROR respectively, text the arguments joined by
the delimiter (a single space by default), and the configured channel-send
timeout passed to `put`; the timeout recorded at construction defaults to 0
when not given. -/
theorem send_msg_enqueues_one (q : MsgQueue) (TIMEOUT : Nat)
    (delimiter : String) (args : List String) (h : args ≠ []) :
    debug_msg (some q) TIMEOUT args delimiter = some ⟨q.contents ++
      [(⟨LOG_LEVEL.DEBUG, String.intercalate delimiter args⟩, TIMEOUT)]⟩ ∧
    warn_msg (some q) TIMEOUT args delimiter = some ⟨q.contents ++
      [(⟨LOG_LEVEL.WARNING, String.intercalate delimiter args⟩, TIMEOUT)]⟩ ∧
    fail_msg (some q) TIMEOUT args delimiter = some ⟨q.contents ++
      [(⟨LOG_LEVEL.ERROR, String.intercalate delimiter args⟩, TIMEOUT)]⟩ ∧
    defaultDelimiter = " " ∧
    (∀ (s mq : Option PyObj) (f : BearFields),
      bearInit s mq = Except.ok f → f.TIMEOUT = 0) := by
  have hl : ¬(args.length = 0) := by
    simpa [List.length_eq_zero] using h
  refine ⟨?_, ?_, ?_, rfl, ?_⟩
  · simp [debug_msg, sendMsg, hl]
  · simp [warn_msg, sendMsg, hl]
  · simp [fail_msg, sendMsg, hl]
  · intro s mq f hf
    unfold bearInit at hf
    split at hf
    · cases hf
    · split at hf
      · cases hf
      · cases hf
        rfl

/-- Closed evaluation of `send_msg_enqueues_one` on concrete arguments. -/
theorem send_msg_enqueues_one_witness :
    debug_msg (some ⟨[]⟩) 7 ["a", "b"] "," = some ⟨(⟨[]⟩ : MsgQueue).contents ++
      [(⟨LOG_LEVEL.DEBUG, String.intercalate "," ["a", "b"]⟩, 7)]⟩ ∧
    warn_msg (some ⟨[]⟩) 7 ["a", "b"] "," = some ⟨(⟨[]⟩ : MsgQueue).contents ++
      [(⟨LOG_LEVEL.WARNING, String.intercalate "," ["a", "b"]⟩, 7)]⟩ ∧
    fail_msg (some ⟨[]⟩) 7 ["a", "b"] "," = some ⟨(⟨[]⟩ : MsgQueue).contents ++
      [(⟨LOG_LEVEL.ERROR, String.intercalate "," ["a", "b"]⟩, 7)]⟩ ∧
    defaultDelimiter = " " ∧
    (∀ (s mq : Option PyObj) (f : BearFields),
      bearInit s mq = Except.ok f → f.TIMEOUT = 0) :=
  send_msg_enqueues_one ⟨[]⟩ 7 "," ["a", "b"] (by decide)

end Coala
